import Mathlib

/-!
Shallow embedding of the WhatsApp Cloudflare agent
(`src/worker.ts`, `src/durable-objects/conversation.ts`,
`src/services/whatsapp.ts`, `src/types.ts`).

The per-user Durable Object storage (key `messages`) is modelled as
`Option (List Message)`: `none` when the key is absent, `some l` when a
list is stored.  External calls (read receipt, text generation, outbound
send) are modelled by an `Oracle` fixing their outcomes, and every call
made is recorded in a trace so that "is invoked exactly once with ..."
claims are statable.  JavaScript truthiness matters in two places and is
modelled exactly: `!message.text?.body` is true when `text` is absent or
`body` is the empty string, and `result.text || fallback` substitutes the
fallback when the generated text is empty.
-/

namespace WCA

/-- `MessageRole` from `src/types.ts`. -/
inductive MessageRole where
  | user
  | assistant
  | system
  deriving DecidableEq, Repr

/-- `Message` from `src/types.ts` (timestamps as naturals, milliseconds). -/
structure Message where
  role : MessageRole
  content : String
  timestamp : Nat
  deriving DecidableEq, Repr

/-- `WhatsAppContact` from `src/types.ts`. -/
structure WhatsAppContact where
  wa_id : String
  profileName : Option String
  deriving DecidableEq, Repr

/-- The `type` field of a WhatsApp message (`src/types.ts`). -/
inductive WaMessageType where
  | text
  | audio
  | image
  | video
  deriving DecidableEq, Repr

/-- The `text` field `{ body: string }` of a WhatsApp message. -/
structure TextBody where
  body : String
  deriving DecidableEq, Repr

/-- `WhatsAppMessage` from `src/types.ts`; `sender` is the source's `from`
field (a Lean keyword), and the provider timestamp string of seconds is
modelled as a natural number. -/
structure WhatsAppMessage where
  id : String
  sender : String
  timestamp : Nat
  type : WaMessageType
  text : Option TextBody
  deriving DecidableEq, Repr

/-- `metadata` inside a webhook change value (`src/types.ts`). -/
structure ChangeMetadata where
  display_phone_number : String
  phone_number_id : String
  deriving DecidableEq, Repr

/-- The `value` of a webhook change; `contacts` and `messages` are optional
arrays (`src/types.ts`). -/
structure ChangeValue where
  messaging_product : String
  metadata : ChangeMetadata
  contacts : Option (List WhatsAppContact)
  messages : Option (List WhatsAppMessage)
  deriving DecidableEq, Repr

/-- One element of the `changes` array (`src/types.ts`). -/
structure Change where
  value : ChangeValue
  deriving DecidableEq, Repr

/-- One element of the `entry` array (`src/types.ts`). -/
structure WebhookEntry where
  changes : List Change
  deriving DecidableEq, Repr

/-- `WhatsAppWebhookPayload` from `src/types.ts`. -/
structure WhatsAppWebhookPayload where
  entry : List WebhookEntry
  deriving DecidableEq, Repr

/-- The Durable Object storage slot under key `messages`. -/
abbrev Storage := Option (List Message)

/-- `ConversationDurableObject.MAX_MESSAGES`. -/
def MAX_MESSAGES : Nat := 20

/-- `getHistory`: `await this.ctx.storage.get('messages')` with `|| []`. -/
def getHistory (st : Storage) : List Message :=
  st.getD []

/-- `addMessage`: push the message, then keep only the most recent
`MAX_MESSAGES` entries (`history.slice(-MAX_MESSAGES)` when over the
bound), and persist. -/
def addMessage (st : Storage) (message : Message) : Storage :=
  let history := getHistory st ++ [message]
  some (if history.length > MAX_MESSAGES then
          history.drop (history.length - MAX_MESSAGES)
        else history)

/-- `clearHistory`: `await this.ctx.storage.delete('messages')`. -/
def clearHistory (_st : Storage) : Storage :=
  none

/- ### Fixed strings from `conversation.ts` and `whatsapp.ts` -/

/-- Fallback notice sent for non-text messages. -/
def UNSUPPORTED_NOTICE : String :=
  "Sorry, I can only process text messages in this demo."

/-- Substituted when `generateText` returns an empty (falsy) text. -/
def EMPTY_GENERATION_FALLBACK : String :=
  "I'm sorry, I couldn't generate a response."

/-- Substituted when the `generateText` call throws. -/
def GENERATION_APOLOGY : String :=
  "I apologize, but I encountered an error. Please try again."

/-- Error string of the delivery-failure result, also the prefix of the
exception thrown by `sendTextMessage` in `whatsapp.ts`. -/
def SEND_FAILED_ERROR : String := "Failed to send WhatsApp message"

/- ### External collaborators -/

/-- Outcomes of the external calls made during one `processMessage`
invocation: the read receipt, the `generateText` call (`none` when it
throws, `some t` when it returns text `t`), the single outbound
`sendTextMessage` (with the response body text used in the thrown error
when it fails), and the clock value used for the assistant timestamp. -/
structure Oracle where
  receiptOk : Bool
  genResult : Option String
  sendOk : Bool
  sendErrText : String
  now : Nat
  deriving DecidableEq, Repr

/-- One external call made by the actor, with its arguments and outcome. -/
inductive CallEvent where
  | receipt (messageId : String) (ok : Bool)
  | generate (msgs : List Message) (result : Option String)
  | send (text : String) (recipient : String) (ok : Bool)
  deriving DecidableEq, Repr

/-- The value returned by `processMessage`:
`{ success: boolean; error?: string; response?: string }`. -/
structure ProcResult where
  success : Bool
  error : Option String
  response : Option String
  deriving DecidableEq, Repr

/-- Result, post-state and external-call trace of one invocation. -/
structure ProcOutput where
  result : ProcResult
  storage : Storage
  trace : List CallEvent
  deriving DecidableEq, Repr

/-- `generateResponse` as a function of the `generateText` outcome: on a
thrown error the fixed apology, otherwise `result.text || fallback`
(JavaScript `||`: the empty string is falsy and is replaced).  The message
list argument of the source function only shapes the request and is
recorded in the call trace at the call site. -/
def generateResponse (genResult : Option String) : String :=
  match genResult with
  | none => GENERATION_APOLOGY
  | some t => if t = "" then EMPTY_GENERATION_FALLBACK else t

/-- The branch test `message.type !== 'text' || !message.text?.body`:
true when the type is not text, the `text` field is absent, or the body is
the empty string (JavaScript truthiness). -/
def isUnsupported (m : WhatsAppMessage) : Bool :=
  m.type != WaMessageType.text ||
    (match m.text with
     | none => true
     | some t => t.body == "")

/-- `webhookData.entry?.[0]` followed by `entry?.changes?.[0]`. -/
def firstChange (p : WhatsAppWebhookPayload) : Option Change :=
  p.entry.head?.bind (fun e => e.changes.head?)

/-- `ConversationDurableObject.processMessage` as a state transition on the
storage slot, given the external-call outcomes in `o`.  Produces the
returned result, the new storage, and the trace of external calls made.
The read-receipt call is wrapped in try/catch in the source, so its outcome
is recorded but never read; a throwing `sendTextMessage` in the
unsupported-type branch escapes to the outer catch, which returns the
exception's message (`whatsapp.ts` throws
`Failed to send WhatsApp message: <body>`), while the delivery of the
assistant reply is caught locally and mapped to the fixed
`Failed to send WhatsApp message` error. -/
def processMessage (o : Oracle) (st : Storage)
    (webhookData : WhatsAppWebhookPayload) : ProcOutput :=
  match firstChange webhookData with
  | none => ⟨⟨false, some "Invalid webhook data", none⟩, st, []⟩
  | some changes =>
    if changes.value.messages.isNone || changes.value.contacts.isNone then
      ⟨⟨false, some "Invalid webhook data", none⟩, st, []⟩
    else
      match changes.value.contacts.bind List.head?,
            changes.value.messages.bind List.head? with
      | some contact, some message =>
        let waId := contact.wa_id
        let messageTimestamp := message.timestamp * 1000
        let receiptTrace := [CallEvent.receipt message.id o.receiptOk]
        if isUnsupported message then
          let trace := receiptTrace ++ [CallEvent.send UNSUPPORTED_NOTICE waId o.sendOk]
          if o.sendOk then
            ⟨⟨false, some "Unsupported message type", none⟩, st, trace⟩
          else
            ⟨⟨false, some (SEND_FAILED_ERROR ++ ": " ++ o.sendErrText), none⟩, st, trace⟩
        else
          let content := (message.text.map TextBody.body).getD ""
          let history := getHistory st
          let userMessage : Message := ⟨MessageRole.user, content, messageTimestamp⟩
          let st1 := addMessage st userMessage
          let response := generateResponse o.genResult
          let genTrace := receiptTrace ++
            [CallEvent.generate (history ++ [userMessage]) o.genResult]
          let assistantMessage : Message := ⟨MessageRole.assistant, response, o.now⟩
          let st2 := addMessage st1 assistantMessage
          let trace := genTrace ++ [CallEvent.send response waId o.sendOk]
          if o.sendOk then
            ⟨⟨true, none, some response⟩, st2, trace⟩
          else
            ⟨⟨false, some SEND_FAILED_ERROR, none⟩, st2, trace⟩
      | _, _ => ⟨⟨false, some "Missing contact or message", none⟩, st, []⟩

/- ### The Worker dispatcher (`worker.ts`) -/

/-- The JSON responses of `POST /webhook` in `worker.ts`: the two 200
acknowledgements for filtered payloads, the 200 success, and the 500
failure carrying the actor's error. -/
inductive WebhookResponse where
  | ackNotMessage
  | ackInvalid
  | processedOk
  | processedErr (error : Option String)
  deriving DecidableEq, Repr

/-- The per-user Durable Object storages, addressed by `wa_id`
(`idFromName` maps equal names to the same instance). -/
abbrev GlobalState := String → Storage

/-- `app.post('/webhook')`: validate the payload shape, resolve the Durable
Object from `contacts[0].wa_id`, and forward the full body to its
`processMessage`. -/
def handleWebhook (o : Oracle) (g : GlobalState)
    (body : WhatsAppWebhookPayload) :
    WebhookResponse × GlobalState × List CallEvent :=
  match firstChange body with
  | none => (WebhookResponse.ackNotMessage, g, [])
  | some changes =>
    if changes.value.messages.isNone || changes.value.contacts.isNone then
      (WebhookResponse.ackNotMessage, g, [])
    else
      match changes.value.contacts.bind List.head?,
            changes.value.messages.bind List.head? with
      | some contact, some _ =>
        let waId := contact.wa_id
        let out := processMessage o (g waId) body
        ((if out.result.success then WebhookResponse.processedOk
          else WebhookResponse.processedErr out.result.error),
         fun k => if k = waId then out.storage else g k,
         out.trace)
      | _, _ => (WebhookResponse.ackInvalid, g, [])

/-- A payload with exactly one entry, one change, one contact and one
message, as used to state the per-branch theorems. -/
def mkPayload (contact : WhatsAppContact) (message : WhatsAppMessage) :
    WhatsAppWebhookPayload :=
  ⟨[⟨[⟨⟨"whatsapp", ⟨"", ""⟩, some [contact], some [message]⟩⟩]⟩]⟩

/-- Keep only the first entry, its first change, the first contact and the
first message of a payload; everything the code reads (claim C10). -/
def truncatePayload (p : WhatsAppWebhookPayload) : WhatsAppWebhookPayload :=
  ⟨(p.entry.take 1).map (fun e =>
    ⟨(e.changes.take 1).map (fun ch =>
      ⟨⟨ch.value.messaging_product, ch.value.metadata,
        ch.value.contacts.map (fun l => l.take 1),
        ch.value.messages.map (fun l => l.take 1)⟩⟩)⟩)⟩

/-- The message lists passed to the Response Generator during a run. -/
def generatorInputs (out : ProcOutput) : List (List Message) :=
  out.trace.filterMap (fun e => match e with
    | CallEvent.generate msgs _ => some msgs
    | _ => none)

/-- The (text, recipient) arguments of the Delivery Channel sends during a
run. -/
def deliveries (out : ProcOutput) : List (String × String) :=
  out.trace.filterMap (fun e => match e with
    | CallEvent.send t r _ => some (t, r)
    | _ => none)

/- ### Concrete inputs used by witnesses and counterexamples -/

/-- A sample contact. -/
def exContact : WhatsAppContact := ⟨"15550001111", none⟩

/-- A sample plain-text inbound message. -/
def exTextMsg : WhatsAppMessage :=
  ⟨"wamid.1", "15550001111", 1700000000, WaMessageType.text, some ⟨"Hello"⟩⟩

/-- A sample audio (non-text) inbound message. -/
def exAudioMsg : WhatsAppMessage :=
  ⟨"wamid.2", "15550001111", 1700000000, WaMessageType.audio, none⟩

/-- Oracle of a fully successful run. -/
def exOracle : Oracle := ⟨true, some "Hi! How can I help?", true, "", 1700000100000⟩

/-- Oracle of a run whose outbound send fails with body `boom`. -/
def exOracleSendFail : Oracle := ⟨true, some "Hi! How can I help?", false, "boom", 1700000100000⟩

/-- Oracle of a run whose generation call throws. -/
def exOracleGenFail : Oracle := ⟨true, none, true, "", 1700000100000⟩

/-- A full 20-entry history. -/
def exPre20 : List Message :=
  (List.range 20).map (fun i => ⟨MessageRole.user, "m", i⟩)

/-- A payload whose `contacts` array is present but empty. -/
def exEmptyContactsPayload : WhatsAppWebhookPayload :=
  ⟨[⟨[⟨⟨"whatsapp", ⟨"", ""⟩, some [], some [exTextMsg]⟩⟩]⟩]⟩

/- ### Sliding-window lemmas (claim C1) -/

theorem addMessage_eq_drop (st : Storage) (m : Message) :
    addMessage st m =
      some ((getHistory st ++ [m]).drop ((getHistory st ++ [m]).length - MAX_MESSAGES)) := by
  by_cases h : (getHistory st ++ [m]).length > MAX_MESSAGES
  · simp only [addMessage, if_pos h]
  · have h0 : (getHistory st ++ [m]).length - MAX_MESSAGES = 0 := by omega
    simp only [addMessage, if_neg h, h0, List.drop_zero]

theorem drop_window_absorb (a b : List Message) (K : Nat) :
    (a.drop (a.length - K) ++ b).drop ((a.drop (a.length - K) ++ b).length - K) =
      (a ++ b).drop ((a ++ b).length - K) := by
  have hk : a.length - K ≤ a.length := Nat.sub_le _ _
  rw [← List.drop_append_of_le_length hk, List.drop_drop]
  congr 1
  simp only [List.length_append, List.length_drop]
  omega

theorem foldl_addMessage_eq_drop (ms : List Message) :
    ∀ l : List Message, l.length ≤ MAX_MESSAGES →
      getHistory (ms.foldl addMessage (some l)) =
        (l ++ ms).drop ((l ++ ms).length - MAX_MESSAGES) := by
  induction ms with
  | nil =>
    intro l hl
    have h0 : l.length - MAX_MESSAGES = 0 := by omega
    simp [getHistory, h0]
  | cons m ms ih =>
    intro l hl
    have step : addMessage (some l) m =
        some ((l ++ [m]).drop ((l ++ [m]).length - MAX_MESSAGES)) := by
      simpa [getHistory] using addMessage_eq_drop (some l) m
    have hk : (l ++ [m]).length - MAX_MESSAGES ≤ (l ++ [m]).length := by
      omega
    have hlen : ((l ++ [m]).drop ((l ++ [m]).length - MAX_MESSAGES)).length
        ≤ MAX_MESSAGES := by
      simp only [List.length_drop, List.length_append, List.length_singleton]
      omega
    calc getHistory ((m :: ms).foldl addMessage (some l))
        = getHistory (ms.foldl addMessage (addMessage (some l) m)) := by
          simp [List.foldl_cons]
      _ = (((l ++ [m]).drop ((l ++ [m]).length - MAX_MESSAGES)) ++ ms).drop
            ((((l ++ [m]).drop ((l ++ [m]).length - MAX_MESSAGES)) ++ ms).length
              - MAX_MESSAGES) := by
          rw [step]
          exact ih _ hlen
      _ = (l ++ m :: ms).drop ((l ++ m :: ms).length - MAX_MESSAGES) := by
          rw [drop_window_absorb (l ++ [m]) ms MAX_MESSAGES]
          simp

/-- C1: appending N messages to an initially empty history through
`addMessage` yields exactly the most recently appended
`min N MAX_MESSAGES` messages in original order; in particular the
persisted history has length `min N 20` and never exceeds 20 entries,
whatever the role interleaving of the appended messages. -/
theorem history_sliding_window (ms : List Message) :
    getHistory (ms.foldl addMessage (some [])) =
      ms.drop (ms.length - MAX_MESSAGES) ∧
    (getHistory (ms.foldl addMessage (some []))).length = min ms.length MAX_MESSAGES ∧
    (getHistory (ms.foldl addMessage (some []))).length ≤ 20 := by
  have h := foldl_addMessage_eq_drop ms [] (by simp [MAX_MESSAGES])
  simp only [List.nil_append] at h
  have hM : MAX_MESSAGES = 20 := rfl
  refine ⟨h, ?_, ?_⟩
  · rw [h]
    simp only [List.length_drop]
    rw [hM] at *
    omega
  · rw [h]
    simp only [List.length_drop]
    rw [hM] at *
    omega

/- ### Helper lemmas on the storage operations -/

theorem getHistory_some (l : List Message) : getHistory (some l) = l := rfl

theorem getHistory_addMessage (st : Storage) (m : Message) :
    getHistory (addMessage st m) =
      (getHistory st).drop ((getHistory st).length + 1 - MAX_MESSAGES) ++ [m] := by
  have hk : (getHistory st ++ [m]).length - MAX_MESSAGES ≤ (getHistory st).length := by
    simp only [List.length_append, List.length_singleton, MAX_MESSAGES]
    omega
  rw [addMessage_eq_drop, getHistory_some]
  rw [List.drop_append_of_le_length hk]
  congr 2
  simp

theorem getHistory_addMessage_no_trim (st : Storage) (m : Message)
    (h : (getHistory st).length < MAX_MESSAGES) :
    getHistory (addMessage st m) = getHistory st ++ [m] := by
  rw [getHistory_addMessage]
  have h0 : (getHistory st).length + 1 - MAX_MESSAGES = 0 := by omega
  rw [h0, List.drop_zero]

theorem addMessage_twice_suffix (st : Storage) (u a : Message) :
    ∃ pre, getHistory (addMessage (addMessage st u) a) = pre ++ [u, a] := by
  rw [getHistory_addMessage (addMessage st u) a, getHistory_addMessage st u]
  set x := (getHistory st).drop ((getHistory st).length + 1 - MAX_MESSAGES) with hx
  have hxlen : x.length = (getHistory st).length -
      ((getHistory st).length + 1 - MAX_MESSAGES) := by
    rw [hx, List.length_drop]
  have hk2 : (x ++ [u]).length + 1 - MAX_MESSAGES ≤ x.length := by
    simp only [List.length_append, List.length_singleton, MAX_MESSAGES] at *
    omega
  rw [List.drop_append_of_le_length hk2]
  exact ⟨x.drop ((x ++ [u]).length + 1 - MAX_MESSAGES), by simp⟩

/-- The substituted generation text is never empty. -/
theorem generateResponse_ne_empty (g : Option String) : generateResponse g ≠ "" := by
  cases g with
  | none => simp [generateResponse, GENERATION_APOLOGY]
  | some t =>
    by_cases ht : t = ""
    · simp [generateResponse, ht, EMPTY_GENERATION_FALLBACK]
    · simp [generateResponse, ht]

/-- The text branch is taken exactly for a text-typed message with a
present, non-empty body. -/
theorem isUnsupported_eq_false_iff (m : WhatsAppMessage) :
    isUnsupported m = false ↔
      m.type = WaMessageType.text ∧ ∃ tb, m.text = some tb ∧ tb.body ≠ "" := by
  unfold isUnsupported
  cases htx : m.text with
  | none => simp [htx]
  | some tb =>
    by_cases hb : tb.body = "" <;>
      cases hty : m.type <;> simp [htx, hb, hty]

/- ### Branch unfoldings of `processMessage` on single-element payloads -/

theorem processMessage_mkPayload_unsupported (o : Oracle) (st : Storage)
    (c : WhatsAppContact) (m : WhatsAppMessage) (hu : isUnsupported m = true) :
    processMessage o st (mkPayload c m) =
      ⟨(if o.sendOk then ⟨false, some "Unsupported message type", none⟩
        else ⟨false, some (SEND_FAILED_ERROR ++ ": " ++ o.sendErrText), none⟩),
       st,
       [CallEvent.receipt m.id o.receiptOk,
        CallEvent.send UNSUPPORTED_NOTICE c.wa_id o.sendOk]⟩ := by
  simp only [processMessage, mkPayload, firstChange, List.head?_cons, Option.some_bind,
    Option.isNone_some, Bool.or_self, hu, if_true]
  cases hs : o.sendOk <;> simp [hs]

theorem processMessage_mkPayload_text (o : Oracle) (st : Storage)
    (c : WhatsAppContact) (m : WhatsAppMessage) (hu : isUnsupported m = false) :
    processMessage o st (mkPayload c m) =
      ⟨(if o.sendOk then ⟨true, none, some (generateResponse o.genResult)⟩
        else ⟨false, some SEND_FAILED_ERROR, none⟩),
       addMessage (addMessage st
           ⟨MessageRole.user, (m.text.map TextBody.body).getD "", m.timestamp * 1000⟩)
         ⟨MessageRole.assistant, generateResponse o.genResult, o.now⟩,
       [CallEvent.receipt m.id o.receiptOk,
        CallEvent.generate (getHistory st ++
          [⟨MessageRole.user, (m.text.map TextBody.body).getD "", m.timestamp * 1000⟩])
          o.genResult,
        CallEvent.send (generateResponse o.genResult) c.wa_id o.sendOk]⟩ := by
  simp only [processMessage, mkPayload, firstChange, List.head?_cons, Option.some_bind,
    Option.isNone_some, Bool.or_self, hu, if_false]
  cases hs : o.sendOk <;> simp [hs]

/-- All branches of `processMessage` either leave the storage untouched or
append one user message (with the inbound body as content) and one
assistant message (with the substituted generation text as content). -/
theorem processMessage_storage_shape (o : Oracle) (st : Storage)
    (p : WhatsAppWebhookPayload) :
    (processMessage o st p).storage = st ∨
    ∃ message : WhatsAppMessage, isUnsupported message = false ∧
      (processMessage o st p).storage =
        addMessage (addMessage st
            ⟨MessageRole.user, (message.text.map TextBody.body).getD "",
              message.timestamp * 1000⟩)
          ⟨MessageRole.assistant, generateResponse o.genResult, o.now⟩ := by
  unfold processMessage
  cases hch : firstChange p with
  | none => left; rfl
  | some ch =>
    by_cases hb : (ch.value.messages.isNone || ch.value.contacts.isNone) = true
    · left
      simp [hb]
    · simp only [hb, if_false]
      cases hc : ch.value.contacts.bind List.head? with
      | none =>
        cases hm : ch.value.messages.bind List.head? with
        | none => left; rfl
        | some msg => left; rfl
      | some contact =>
        cases hm : ch.value.messages.bind List.head? with
        | none => left; rfl
        | some message =>
          by_cases hu : isUnsupported message = true
          · left
            cases hs : o.sendOk <;> simp [hu, hs]
          · right
            refine ⟨message, by simpa using hu, ?_⟩
            cases hs : o.sendOk <;> simp [hu, hs]

theorem head?_take_one {α : Type _} (l : List α) : (l.take 1).head? = l.head? := by
  cases l <;> rfl

theorem firstChange_truncate (p : WhatsAppWebhookPayload) :
    firstChange (truncatePayload p) = (firstChange p).map (fun ch =>
      ⟨⟨ch.value.messaging_product, ch.value.metadata,
        ch.value.contacts.map (fun l => l.take 1),
        ch.value.messages.map (fun l => l.take 1)⟩⟩) := by
  unfold firstChange truncatePayload
  cases p.entry with
  | nil => rfl
  | cons e es =>
    cases e with
    | mk chs =>
      cases chs with
      | nil => rfl
      | cons c cs => rfl

theorem processMessage_truncate (o : Oracle) (st : Storage)
    (p : WhatsAppWebhookPayload) :
    processMessage o st (truncatePayload p) = processMessage o st p := by
  unfold processMessage
  rw [firstChange_truncate]
  cases hch : firstChange p with
  | none => rfl
  | some ch =>
    have hmsg : (ch.value.messages.map (fun l => l.take 1)).isNone =
        ch.value.messages.isNone := by
      cases ch.value.messages <;> rfl
    have hcon : (ch.value.contacts.map (fun l => l.take 1)).isNone =
        ch.value.contacts.isNone := by
      cases ch.value.contacts <;> rfl
    have hconh : (ch.value.contacts.map (fun l => l.take 1)).bind List.head? =
        ch.value.contacts.bind List.head? := by
      cases ch.value.contacts with
      | none => rfl
      | some l => simp [head?_take_one]
    have hmsgh : (ch.value.messages.map (fun l => l.take 1)).bind List.head? =
        ch.value.messages.bind List.head? := by
      cases ch.value.messages with
      | none => rfl
      | some l => simp [head?_take_one]
    simp only [Option.map_some']
    rw [hmsg, hcon, hconh, hmsgh]

theorem handleWebhook_truncate (o : Oracle) (g : GlobalState)
    (p : WhatsAppWebhookPayload) :
    handleWebhook o g (truncatePayload p) = handleWebhook o g p := by
  unfold handleWebhook
  rw [firstChange_truncate]
  cases hch : firstChange p with
  | none => rfl
  | some ch =>
    have hmsg : (ch.value.messages.map (fun l => l.take 1)).isNone =
        ch.value.messages.isNone := by
      cases ch.value.messages <;> rfl
    have hcon : (ch.value.contacts.map (fun l => l.take 1)).isNone =
        ch.value.contacts.isNone := by
      cases ch.value.contacts <;> rfl
    have hconh : (ch.value.contacts.map (fun l => l.take 1)).bind List.head? =
        ch.value.contacts.bind List.head? := by
      cases ch.value.contacts with
      | none => rfl
      | some l => simp [head?_take_one]
    have hmsgh : (ch.value.messages.map (fun l => l.take 1)).bind List.head? =
        ch.value.messages.bind List.head? := by
      cases ch.value.messages with
      | none => rfl
      | some l => simp [head?_take_one]
    simp only [Option.map_some']
    rw [hmsg, hcon, hconh, hmsgh]
    simp only [processMessage_truncate]

/- ### Claim theorems -/

/-- C9: `clearHistory` followed by a load yields the empty sequence for
every prior state, and `clearHistory` is idempotent: clearing a
just-cleared history leaves the state identical. -/
theorem clearHistory_clears_idempotent (st : Storage) :
    getHistory (clearHistory st) = [] ∧
    clearHistory (clearHistory st) = clearHistory st :=
  ⟨rfl, rfl⟩

/-- C2 (amended): for every accepted plain-text message the sequence passed
to the Response Generator is the pre-append loaded history with the new
user message appended, without the sliding-window trim; this equals the
post-append persisted history exactly when the pre-append history holds
fewer than `MAX_MESSAGES` entries. -/
theorem generator_input_is_pre_append (o : Oracle) (st : Storage)
    (c : WhatsAppContact) (m : WhatsAppMessage) (hu : isUnsupported m = false) :
    generatorInputs (processMessage o st (mkPayload c m)) =
      [getHistory st ++
        [⟨MessageRole.user, (m.text.map TextBody.body).getD "", m.timestamp * 1000⟩]] ∧
    ((getHistory st).length < MAX_MESSAGES →
      getHistory st ++
          [⟨MessageRole.user, (m.text.map TextBody.body).getD "", m.timestamp * 1000⟩] =
        getHistory (addMessage st
          ⟨MessageRole.user, (m.text.map TextBody.body).getD "", m.timestamp * 1000⟩)) := by
  constructor
  · rw [generatorInputs, processMessage_mkPayload_text o st c m hu]
    rfl
  · intro h
    rw [getHistory_addMessage_no_trim st _ h]

/-- C2 counterexample: with a full 20-entry pre-append history the message
list passed to the generator has 21 entries, while the post-append
persisted history has been trimmed to 20, so the two differ. -/
theorem generator_input_post_append_cx :
    generatorInputs (processMessage exOracle (some exPre20) (mkPayload exContact exTextMsg)) ≠
      [getHistory (addMessage (some exPre20)
        ⟨MessageRole.user, "Hello", 1700000000000⟩)] := by
  decide

/-- C2 witness: on an empty history the generator input is exactly the one
new user message, which does agree with the post-append history. -/
theorem generator_input_is_pre_append_witness :
    generatorInputs (processMessage exOracle (some []) (mkPayload exContact exTextMsg)) =
      [getHistory (some ([] : List Message)) ++
        [⟨MessageRole.user, (exTextMsg.text.map TextBody.body).getD "",
          exTextMsg.timestamp * 1000⟩]] :=
  (generator_input_is_pre_append exOracle (some []) exContact exTextMsg (by decide)).1

/-- C4 (amended): for every inbound message whose content type is not plain
text, history is unchanged, the generator is never invoked, and the
Delivery Channel is invoked exactly once with the fixed fallback notice;
the result is `success=false` with error `Unsupported message type` when
that fallback send succeeds, and with the thrown send error's message when
it fails. -/
theorem unsupported_type_branch (o : Oracle) (st : Storage)
    (c : WhatsAppContact) (m : WhatsAppMessage)
    (hm : m.type ≠ WaMessageType.text) :
    (processMessage o st (mkPayload c m)).storage = st ∧
    generatorInputs (processMessage o st (mkPayload c m)) = [] ∧
    deliveries (processMessage o st (mkPayload c m)) = [(UNSUPPORTED_NOTICE, c.wa_id)] ∧
    (processMessage o st (mkPayload c m)).result =
      (if o.sendOk then ⟨false, some "Unsupported message type", none⟩
       else ⟨false, some (SEND_FAILED_ERROR ++ ": " ++ o.sendErrText), none⟩) := by
  have hu : isUnsupported m = true := by
    simp [isUnsupported, hm]
  rw [processMessage_mkPayload_unsupported o st c m hu]
  exact ⟨rfl, rfl, rfl, rfl⟩

/-- C4 witness: an audio message on an empty store, fallback send
succeeding. -/
theorem unsupported_type_branch_witness :
    (processMessage exOracle none (mkPayload exContact exAudioMsg)).storage = none ∧
    generatorInputs (processMessage exOracle none (mkPayload exContact exAudioMsg)) = [] ∧
    deliveries (processMessage exOracle none (mkPayload exContact exAudioMsg)) =
      [(UNSUPPORTED_NOTICE, exContact.wa_id)] ∧
    (processMessage exOracle none (mkPayload exContact exAudioMsg)).result =
      (if exOracle.sendOk then ⟨false, some "Unsupported message type", none⟩
       else ⟨false, some (SEND_FAILED_ERROR ++ ": " ++ exOracle.sendErrText), none⟩) :=
  unsupported_type_branch exOracle none exContact exAudioMsg (by decide)

/-- C4 counterexample: when the fallback send itself fails, the returned
error is the thrown send error's message, not `Unsupported message type`. -/
theorem unsupported_type_error_string_cx :
    (processMessage exOracleSendFail none (mkPayload exContact exAudioMsg)).result.error =
      some "Failed to send WhatsApp message: boom" ∧
    (some "Failed to send WhatsApp message: boom" : Option String) ≠
      some "Unsupported message type" := by
  exact ⟨rfl, by decide⟩

/-- C5: a failing generation is fully absorbed: the assistant entry
appended to history is the fixed apology text, the generation failure never
surfaces in the returned result (the only possible failure is the delivery
one), and the call still returns `success=true` when the delivery
succeeds. -/
theorem generation_failure_absorbed (o : Oracle) (st : Storage)
    (c : WhatsAppContact) (m : WhatsAppMessage)
    (hu : isUnsupported m = false) (hg : o.genResult = none) :
    (processMessage o st (mkPayload c m)).storage =
      addMessage (addMessage st
          ⟨MessageRole.user, (m.text.map TextBody.body).getD "", m.timestamp * 1000⟩)
        ⟨MessageRole.assistant, GENERATION_APOLOGY, o.now⟩ ∧
    (o.sendOk = true →
      (processMessage o st (mkPayload c m)).result =
        ⟨true, none, some GENERATION_APOLOGY⟩) ∧
    (o.sendOk = false →
      (processMessage o st (mkPayload c m)).result =
        ⟨false, some SEND_FAILED_ERROR, none⟩) := by
  rw [processMessage_mkPayload_text o st c m hu]
  have hgen : generateResponse o.genResult = GENERATION_APOLOGY := by
    rw [hg]
    rfl
  refine ⟨by rw [hgen], ?_, ?_⟩
  · intro hs
    simp [hs, hgen]
  · intro hs
    simp [hs]

/-- C5 witness: generation throws, delivery succeeds, result is success
with the apology as the response text. -/
theorem generation_failure_absorbed_witness :
    (processMessage exOracleGenFail (some []) (mkPayload exContact exTextMsg)).result =
      ⟨true, none, some GENERATION_APOLOGY⟩ :=
  (generation_failure_absorbed exOracleGenFail (some []) exContact exTextMsg
    (by decide) rfl).2.1 rfl

/-- C6: when the outbound delivery of the assistant reply fails, the result
is `success=false` with error `Failed to send WhatsApp message`, yet the
persisted history already ends with both the new user message and the new
assistant message. -/
theorem delivery_failure_partial_commit (o : Oracle) (st : Storage)
    (c : WhatsAppContact) (m : WhatsAppMessage)
    (hu : isUnsupported m = false) (hs : o.sendOk = false) :
    (processMessage o st (mkPayload c m)).result =
      ⟨false, some SEND_FAILED_ERROR, none⟩ ∧
    ∃ pre, getHistory (processMessage o st (mkPayload c m)).storage =
      pre ++ [⟨MessageRole.user, (m.text.map TextBody.body).getD "", m.timestamp * 1000⟩,
              ⟨MessageRole.assistant, generateResponse o.genResult, o.now⟩] := by
  rw [processMessage_mkPayload_text o st c m hu]
  refine ⟨by simp [hs], ?_⟩
  exact addMessage_twice_suffix st _ _

/-- C6 witness: delivery fails on an empty store; both entries are in the
persisted history. -/
theorem delivery_failure_partial_commit_witness :
    (processMessage exOracleSendFail (some []) (mkPayload exContact exTextMsg)).result =
      ⟨false, some SEND_FAILED_ERROR, none⟩ ∧
    ∃ pre, getHistory
        (processMessage exOracleSendFail (some []) (mkPayload exContact exTextMsg)).storage =
      pre ++ [⟨MessageRole.user, (exTextMsg.text.map TextBody.body).getD "",
                exTextMsg.timestamp * 1000⟩,
              ⟨MessageRole.assistant, generateResponse exOracleSendFail.genResult,
                exOracleSendFail.now⟩] :=
  delivery_failure_partial_commit exOracleSendFail (some []) exContact exTextMsg
    (by decide) rfl

/-- C3 (amended): a payload with a missing `messages` or `contacts` array
(or no first entry/change at all) is rejected with error
`Invalid webhook data`; a payload whose arrays are present but yield no
first element is rejected with error `Missing contact or message`.  In
both cases `success=false`, the storage is unchanged and no external call
is made. -/
theorem invalid_webhook_no_effect (o : Oracle) (st : Storage)
    (p : WhatsAppWebhookPayload) :
    ((firstChange p = none ∨
      ∃ ch, firstChange p = some ch ∧
        (ch.value.messages = none ∨ ch.value.contacts = none)) →
      processMessage o st p = ⟨⟨false, some "Invalid webhook data", none⟩, st, []⟩) ∧
    ((∃ ch cs ms, firstChange p = some ch ∧ ch.value.contacts = some cs ∧
        ch.value.messages = some ms ∧ (cs = [] ∨ ms = [])) →
      processMessage o st p =
        ⟨⟨false, some "Missing contact or message", none⟩, st, []⟩) := by
  constructor
  · rintro (h | ⟨ch, hch, hmc⟩)
    · simp [processMessage, h]
    · rcases hmc with hm | hc
      · simp [processMessage, hch, hm]
      · simp [processMessage, hch, hc]
  · rintro ⟨ch, cs, ms, hch, hcs, hms, hempty⟩
    rcases hempty with rfl | rfl
    · simp [processMessage, hch, hcs, hms]
    · cases cs with
      | nil => simp [processMessage, hch, hcs, hms]
      | cons c cs' => simp [processMessage, hch, hcs, hms]

/-- C3 witness: the empty payload is rejected as invalid webhook data with
the storage untouched and no call made. -/
theorem invalid_webhook_no_effect_witness :
    processMessage exOracle (some []) (⟨[]⟩ : WhatsAppWebhookPayload) =
      ⟨⟨false, some "Invalid webhook data", none⟩, some [], []⟩ :=
  (invalid_webhook_no_effect exOracle (some []) ⟨[]⟩).1 (Or.inl rfl)

/-- C3 counterexample: a payload whose `contacts` array is present but
empty yields the error `Missing contact or message`, not
`Invalid webhook data` as the claim states. -/
theorem invalid_webhook_error_string_cx :
    (processMessage exOracle none exEmptyContactsPayload).result.error =
      some "Missing contact or message" ∧
    (some "Missing contact or message" : Option String) ≠
      some "Invalid webhook data" := by
  exact ⟨rfl, by decide⟩

/-- C7: two runs of `processMessage` that differ only in the outcome of the
best-effort read-receipt call return the same result and persist the same
history; the receipt outcome never aborts processing. -/
theorem receipt_noninterference (r₁ r₂ : Bool) (gen : Option String)
    (sendOk : Bool) (errText : String) (now : Nat) (st : Storage)
    (p : WhatsAppWebhookPayload) :
    (processMessage ⟨r₁, gen, sendOk, errText, now⟩ st p).result =
      (processMessage ⟨r₂, gen, sendOk, errText, now⟩ st p).result ∧
    (processMessage ⟨r₁, gen, sendOk, errText, now⟩ st p).storage =
      (processMessage ⟨r₂, gen, sendOk, errText, now⟩ st p).storage := by
  unfold processMessage
  cases hch : firstChange p with
  | none => exact ⟨rfl, rfl⟩
  | some ch =>
    by_cases hb : (ch.value.messages.isNone || ch.value.contacts.isNone) = true
    · simp [hb]
    · simp only [hb, if_false]
      cases hc : ch.value.contacts.bind List.head? with
      | none =>
        cases hm : ch.value.messages.bind List.head? with
        | none => exact ⟨rfl, rfl⟩
        | some msg => exact ⟨rfl, rfl⟩
      | some contact =>
        cases hm : ch.value.messages.bind List.head? with
        | none => exact ⟨rfl, rfl⟩
        | some message =>
          by_cases hu : isUnsupported message = true
          · cases sendOk <;> simp [hu]
          · cases sendOk <;> simp [hu]

/-- C8: every message written to the persisted history by `processMessage`
has non-empty content: any entry of the post-state history is an entry of
the pre-state history or has non-empty content.  Moreover a text-typed
inbound message with an absent or empty body is diverted to the
unsupported-type branch before any append (storage unchanged, generator not
invoked), and an empty generated text is replaced by the non-empty fixed
fallback string before being appended. -/
theorem persisted_content_nonempty (o : Oracle) (st : Storage) :
    (∀ (p : WhatsAppWebhookPayload) (m' : Message),
      m' ∈ getHistory (processMessage o st p).storage →
      m' ∈ getHistory st ∨ m'.content ≠ "") ∧
    (∀ (c : WhatsAppContact) (m : WhatsAppMessage),
      m.type = WaMessageType.text → (m.text = none ∨ m.text = some ⟨""⟩) →
      (processMessage o st (mkPayload c m)).storage = st ∧
      generatorInputs (processMessage o st (mkPayload c m)) = []) ∧
    (∀ (c : WhatsAppContact) (m : WhatsAppMessage),
      isUnsupported m = false → o.genResult = some "" →
      (processMessage o st (mkPayload c m)).storage =
        addMessage (addMessage st
            ⟨MessageRole.user, (m.text.map TextBody.body).getD "",
              m.timestamp * 1000⟩)
          ⟨MessageRole.assistant, EMPTY_GENERATION_FALLBACK, o.now⟩) := by
  refine ⟨?_, ?_, ?_⟩
  · intro p m' hm'
    rcases processMessage_storage_shape o st p with h | ⟨msg, hu, h⟩
    · rw [h] at hm'
      exact Or.inl hm'
    · rw [h, getHistory_addMessage] at hm'
      rcases List.mem_append.1 hm' with hin | hin
      · have hin2 := List.drop_subset _ _ hin
        rw [getHistory_addMessage] at hin2
        rcases List.mem_append.1 hin2 with hin3 | hin3
        · exact Or.inl (List.drop_subset _ _ hin3)
        · right
          have hmu : m' = ⟨MessageRole.user, (msg.text.map TextBody.body).getD "",
              msg.timestamp * 1000⟩ := by simpa using hin3
          rcases (isUnsupported_eq_false_iff msg).1 hu with ⟨-, tb, htb, hbody⟩
          rw [hmu]
          simpa [htb] using hbody
      · right
        have hma : m' = ⟨MessageRole.assistant, generateResponse o.genResult, o.now⟩ := by
          simpa using hin
        rw [hma]
        exact generateResponse_ne_empty _
  · intro c m htype htext
    have hu : isUnsupported m = true := by
      rcases htext with h | h <;> simp [isUnsupported, htype, h]
    rw [processMessage_mkPayload_unsupported o st c m hu]
    exact ⟨rfl, rfl⟩
  · intro c m hu hg
    rw [processMessage_mkPayload_text o st c m hu]
    have : generateResponse o.genResult = EMPTY_GENERATION_FALLBACK := by
      rw [hg]
      rfl
    rw [this]

/-- C8 witness: the freshly appended user entry of a concrete successful
run has non-empty content. -/
theorem persisted_content_nonempty_witness :
    (⟨MessageRole.user, "Hello", 1700000000000⟩ : Message) ∈
        getHistory (some ([] : List Message)) ∨
    (⟨MessageRole.user, "Hello", 1700000000000⟩ : Message).content ≠ "" :=
  (persisted_content_nonempty exOracle (some [])).1 (mkPayload exContact exTextMsg)
    ⟨MessageRole.user, "Hello", 1700000000000⟩ (by decide)

/-- C10: both the Worker dispatcher and `processMessage` read only the
first entry, its first change, and the first contact and first message of a
payload: truncating every additional element changes neither the returned
result nor any user's persisted history nor the external calls made. -/
theorem first_element_only (o : Oracle) (g : GlobalState) (st : Storage)
    (p : WhatsAppWebhookPayload) :
    processMessage o st (truncatePayload p) = processMessage o st p ∧
    handleWebhook o g (truncatePayload p) = handleWebhook o g p :=
  ⟨processMessage_truncate o st p, handleWebhook_truncate o g p⟩

end WCA
